import Mathlib

/-!
Verification development for the token-trackr client SDK.

The definitions below are a shallow embedding of the TypeScript sources:
`config.ts` (TokenTrackrOptions / TokenTrackrConfig), `hostMetadata.ts`
(getHostMetadata), `types.ts` (UsageEvent / UsageEventPayload), and the
provider wrappers `bedrock.ts` and `gemini.ts` (which also contains the
Azure OpenAI wrapper).  JavaScript `x || d` on strings and numbers is
embedded explicitly (`tsOrStr`, `tsNumOr`, `tsOptNumOr`), `x ?? d` is
`Option.getD`, thrown construction errors are `Except.error`, and the
process environment is an explicit `String → Option String` argument.
Components that the specification describes but whose implementation
module is absent from the sources (the client's bounded queue, the retry
scheduler and the wire serializer) are modelled from the specification
and marked as such in their doc comments.
-/

namespace TokenTrackr

/-! ## JavaScript primitives -/

/-- JavaScript `a || b` for `string | undefined`: the empty string and
`undefined` are falsy, so they fall through to the default string `b`. -/
def tsOrStr (a : Option String) (b : String) : String :=
  match a with
  | some s => if s = "" then b else s
  | none => b

/-- JavaScript `a || b` where both sides are `string | undefined`. -/
def tsOrOpt (a b : Option String) : Option String :=
  match a with
  | some s => if s = "" then b else some s
  | none => b

/-- JavaScript `x || d` on a number: `0` (and only `0`, for integers) is
falsy and falls through to `d`. -/
def tsNumOr (x : Int) (d : Int) : Int :=
  if x = 0 then d else x

/-- JavaScript `x || d` on `number | undefined`. -/
def tsOptNumOr (x : Option Int) (d : Int) : Int :=
  match x with
  | some v => tsNumOr v d
  | none => d

/-! ## Configuration (`config.ts`) -/

/-- The `TokenTrackrOptions` interface: every option may be omitted. -/
structure TokenTrackrOptions where
  backendUrl : Option String := none
  apiKey : Option String := none
  tenantId : Option String := none
  batchSize : Option Int := none
  flushInterval : Option Int := none
  maxQueueSize : Option Int := none
  retryAttempts : Option Int := none
  timeout : Option Int := none
  asyncMode : Option Bool := none
deriving DecidableEq

/-- The validated `TokenTrackrConfig` produced by the constructor. -/
structure TokenTrackrConfig where
  backendUrl : String
  apiKey : Option String
  tenantId : String
  batchSize : Int
  flushInterval : Int
  maxQueueSize : Int
  retryAttempts : Int
  timeout : Int
  asyncMode : Bool
deriving DecidableEq

/-- The `.replace(/\/$/, "")` applied to the resolved backend URL:
strips one trailing slash if present (modelled on the character list so
that it stays kernel-evaluable). -/
def stripTrailingSlash (s : String) : String :=
  match s.data.getLast? with
  | some '/' => String.mk s.data.dropLast
  | _ => s

/-- The `TokenTrackrConfig` constructor.  `env` is the process
environment.  A thrown `Error` is an `Except.error` carrying the
message. -/
def TokenTrackrConfig.make (options : TokenTrackrOptions)
    (env : String → Option String) : Except String TokenTrackrConfig :=
  let cfg : TokenTrackrConfig :=
    { backendUrl := stripTrailingSlash
        (tsOrStr options.backendUrl
          (tsOrStr (env "TOKEN_TRACKR_URL") "http://localhost:8000"))
      apiKey := tsOrOpt options.apiKey (env "TOKEN_TRACKR_API_KEY")
      tenantId := tsOrStr options.tenantId
        (tsOrStr (env "TOKEN_TRACKR_TENANT_ID") "default")
      batchSize := options.batchSize.getD 10
      flushInterval := options.flushInterval.getD 5
      maxQueueSize := options.maxQueueSize.getD 1000
      retryAttempts := options.retryAttempts.getD 3
      timeout := options.timeout.getD 30000
      asyncMode := options.asyncMode.getD true }
  if cfg.backendUrl = "" then Except.error "backendUrl is required"
  else if cfg.tenantId = "" then Except.error "tenantId is required"
  else Except.ok cfg

/-- The empty process environment. -/
def emptyEnv : String → Option String := fun _ => none

/-! ## Host metadata (`hostMetadata.ts`) -/

/-- The cloud-provider union type of the `HostMetadata` interface. -/
inductive CloudProvider where
  | aws
  | azure
  | gcp
  | onPrem
  | unknown
deriving DecidableEq

/-- The `K8sMetadata` interface. -/
structure K8sMetadata where
  pod : Option String := none
  «namespace» : Option String := none
  node : Option String := none
deriving DecidableEq

/-- The `HostMetadata` interface. -/
structure HostMetadata where
  hostname : String
  cloudProvider : CloudProvider
  instanceId : Option String := none
  k8s : Option K8sMetadata := none
deriving DecidableEq

/-- `getHostMetadata`.  The cloud probes `detectAWS`, `detectAzure` and
`detectGCP` each resolve to a pair `[detected, instanceId]` (on failure
`[false, undefined]`); their resolved values enter here as explicit
arguments.  The second component of the result counts how many probes
were performed before the function returned, capturing the
short-circuiting early returns of the source. -/
def getHostMetadata (hostName : String) (k8s : Option K8sMetadata)
    (awsProbe azureProbe gcpProbe : Bool × Option String) :
    HostMetadata × Nat :=
  let metadata : HostMetadata :=
    { hostname := hostName, cloudProvider := .unknown, k8s := k8s }
  if awsProbe.1 then
    ({ metadata with cloudProvider := .aws, instanceId := awsProbe.2 }, 1)
  else if azureProbe.1 then
    ({ metadata with cloudProvider := .azure, instanceId := azureProbe.2 }, 2)
  else if gcpProbe.1 then
    ({ metadata with cloudProvider := .gcp, instanceId := gcpProbe.2 }, 3)
  else
    ({ metadata with cloudProvider := .onPrem }, 3)

/-! ## String helpers for the wrappers

`String.toLower` and JavaScript `String.prototype.includes` are modelled
at the character-list level so that they stay kernel-evaluable. -/

/-- Whether the first list of characters starts with the second. -/
def charsStartWith : List Char → List Char → Bool
  | _, [] => true
  | [], _ :: _ => false
  | c :: cs, p :: ps => c == p && charsStartWith cs ps

/-- Whether some suffix of the second list starts with `pat`. -/
def charsContain (pat : List Char) : List Char → Bool
  | [] => charsStartWith [] pat
  | c :: cs => charsStartWith (c :: cs) pat || charsContain pat cs

/-- JavaScript `s.includes(pat)`: substring containment. -/
def jsIncludes (s pat : String) : Bool := charsContain pat.data s.data

/-- `s.toLowerCase()`, modelled by lowering each character. -/
def strToLower (s : String) : String := String.mk (s.data.map Char.toLower)

/-! ## Recorded usage (`client.record` argument)

Each wrapper calls `this.client.record({provider, model, promptTokens,
completionTokens, latencyMs, metadata?})`; the fields relevant to the
claims are embedded. -/

/-- The provider union type of the `UsageEvent` interface. -/
inductive Provider where
  | bedrock
  | azure_openai
  | gemini
deriving DecidableEq

/-- The argument each wrapper passes to `client.record`. -/
structure RecordInput where
  provider : Provider
  model : String
  promptTokens : Int
  completionTokens : Int
  latencyMs : Option Int := none
deriving DecidableEq

/-! ## Bedrock wrapper (`bedrock.ts`) -/

/-- A provider `usage` object as the Bedrock extraction code reads it:
each of the four key names that some model family stores there may be
present or absent.  All counts are JavaScript numbers, embedded as `Int`. -/
structure UsageObj where
  input_tokens : Option Int := none
  output_tokens : Option Int := none
  prompt_tokens : Option Int := none
  completion_tokens : Option Int := none
deriving DecidableEq

/-- The `billed_units` object of a Cohere response `meta`. -/
structure BilledUnits where
  input_tokens : Option Int := none
  output_tokens : Option Int := none
deriving DecidableEq

/-- The `meta` object of a Cohere response. -/
structure MetaObj where
  billed_units : Option BilledUnits := none
deriving DecidableEq

/-- One element of a Titan response `results` array. -/
structure TitanResult where
  tokenCount : Option Int := none
deriving DecidableEq

/-- A parsed Bedrock response body, restricted to the keys
`extractTokens` reads. -/
structure BedrockResponseBody where
  usage : Option UsageObj := none
  inputTextTokenCount : Option Int := none
  results : Option (List TitanResult) := none
  prompt_token_count : Option Int := none
  generation_token_count : Option Int := none
  meta : Option MetaObj := none
deriving DecidableEq

/-- `BedrockWrapper.extractTokens`: dispatch on the model family named in
the (lowercased) model id and read that family's token fields, each
guarded by `|| 0`. -/
def BedrockWrapper.extractTokens (modelId : String)
    (responseBody : BedrockResponseBody) : Int × Int :=
  let modelIdLower := strToLower modelId
  if jsIncludes modelIdLower "anthropic" then
    (tsOptNumOr (responseBody.usage.bind (·.input_tokens)) 0,
     tsOptNumOr (responseBody.usage.bind (·.output_tokens)) 0)
  else if jsIncludes modelIdLower "amazon.titan" then
    (tsOptNumOr responseBody.inputTextTokenCount 0,
     tsOptNumOr ((responseBody.results.bind (·.head?)).bind (·.tokenCount)) 0)
  else if jsIncludes modelIdLower "meta.llama" then
    (tsOptNumOr responseBody.prompt_token_count 0,
     tsOptNumOr responseBody.generation_token_count 0)
  else if jsIncludes modelIdLower "cohere" then
    (tsOptNumOr ((responseBody.meta.bind (·.billed_units)).bind (·.input_tokens)) 0,
     tsOptNumOr ((responseBody.meta.bind (·.billed_units)).bind (·.output_tokens)) 0)
  else if jsIncludes modelIdLower "mistral" then
    (tsOptNumOr (responseBody.usage.bind (·.prompt_tokens)) 0,
     tsOptNumOr (responseBody.usage.bind (·.completion_tokens)) 0)
  else if jsIncludes modelIdLower "ai21" then
    (tsOptNumOr (responseBody.usage.bind (·.prompt_tokens)) 0,
     tsOptNumOr (responseBody.usage.bind (·.completion_tokens)) 0)
  else
    (0, 0)

/-! ## Gemini wrapper (`gemini.ts`) -/

/-- The `usageMetadata` object of a Gemini response. -/
structure GeminiUsageMetadata where
  promptTokenCount : Int
  candidatesTokenCount : Int
  totalTokenCount : Int
deriving DecidableEq

/-- The inner `response` object of a `GenerateContentResponse`; only the
`usageMetadata` field is read by the token logic, the generated
candidates are elided. -/
structure GeminiResponseInner where
  usageMetadata : Option GeminiUsageMetadata := none
deriving DecidableEq

/-- A Gemini `GenerateContentResponse`. -/
structure GenerateContentResponse where
  response : GeminiResponseInner
deriving DecidableEq

/-- The token extraction of `GeminiWrapper.generateContent` (and of
`GeminiChatSession.sendMessage`, which is identical):
`usage?.promptTokenCount || 0` and `usage?.candidatesTokenCount || 0`. -/
def geminiUsageTokens (response : GenerateContentResponse) : Int × Int :=
  let usage := response.response.usageMetadata
  (tsOptNumOr (usage.map (·.promptTokenCount)) 0,
   tsOptNumOr (usage.map (·.candidatesTokenCount)) 0)

/-! ## Azure OpenAI wrapper (second part of `gemini.ts` sources) -/

/-- The `usage` object of a `ChatCompletionResponse`. -/
structure AzureUsage where
  promptTokens : Int
  completionTokens : Int
  totalTokens : Int
deriving DecidableEq

/-- An Azure `ChatCompletionResponse`, restricted to the `usage` field
read by the token logic. -/
structure ChatCompletionResponse where
  usage : Option AzureUsage := none
deriving DecidableEq

/-- The token extraction of `AzureOpenAIWrapper.getChatCompletions`:
`response.usage?.promptTokens || 0` and
`response.usage?.completionTokens || 0`. -/
def azureChatCompletionTokens (response : ChatCompletionResponse) : Int × Int :=
  (tsOptNumOr (response.usage.map (·.promptTokens)) 0,
   tsOptNumOr (response.usage.map (·.completionTokens)) 0)

/-! ## Streaming wrappers

Each streaming wrapper is an async generator: it iterates a finite chunk
sequence, updates a token accumulator when a chunk carries usage
metadata, yields each chunk, and calls `client.record` exactly once
after the loop.  A run over a fully-consumed stream is embedded as the
trace of its observable actions. -/

/-- One observable action of a streaming wrapper run: yielding a chunk
to the consumer, or calling `client.record`. -/
inductive StreamAction (χ : Type) where
  | yieldChunk (c : χ)
  | recordEvent (e : RecordInput)
deriving DecidableEq

/-- The `record` calls appearing in a trace, in order. -/
def recordedEvents {χ : Type} (trace : List (StreamAction χ)) : List RecordInput :=
  trace.filterMap (fun a =>
    match a with
    | .recordEvent e => some e
    | .yieldChunk _ => none)

/-- `GeminiWrapper.generateContentStream` (and the identical
`GeminiChatSession.sendMessageStream`), as the trace of a run that
consumes `chunks` to exhaustion.  The two `Int` arguments are the
`promptTokens` and `completionTokens` accumulator variables, both `0` at
the start of the run. -/
def GeminiWrapper.generateContentStream (modelName : String)
    (latencyMs : Int) :
    List GenerateContentResponse → Int → Int →
      List (StreamAction GenerateContentResponse)
  | [], promptTokens, completionTokens =>
      [.recordEvent { provider := .gemini, model := modelName,
                      promptTokens := promptTokens,
                      completionTokens := completionTokens,
                      latencyMs := some latencyMs }]
  | chunk :: rest, promptTokens, completionTokens =>
      match chunk.response.usageMetadata with
      | some usage =>
          .yieldChunk chunk ::
            generateContentStream modelName latencyMs rest
              (tsNumOr usage.promptTokenCount 0)
              (tsNumOr usage.candidatesTokenCount 0)
      | none =>
          .yieldChunk chunk ::
            generateContentStream modelName latencyMs rest
              promptTokens completionTokens

/-- The `invocationMetrics` carried by a Bedrock `message_stop` chunk
(source key `amazon-bedrock-invocationMetrics`). -/
structure InvocationMetrics where
  inputTokenCount : Option Int := none
  outputTokenCount : Option Int := none
deriving DecidableEq

/-- A decoded Bedrock stream chunk (the JSON parsed from
`event.chunk.bytes`). -/
structure BedrockChunkData where
  type : String
  amazonBedrockInvocationMetrics : Option InvocationMetrics := none
deriving DecidableEq

/-- One event of a Bedrock response stream; `chunk` is absent for
non-chunk events, and present chunks are embedded already decoded. -/
structure BedrockStreamEvent where
  chunk : Option BedrockChunkData := none
deriving DecidableEq

/-- `BedrockWrapper.invokeModelWithResponseStream` as the trace of a run
consuming `events` to exhaustion: events without `chunk.bytes` are
skipped, a `message_stop` chunk carrying invocation metrics overwrites
the accumulators, every decoded chunk is yielded, and `record` runs once
after the loop. -/
def BedrockWrapper.invokeModelWithResponseStream (modelId : String)
    (latencyMs : Int) :
    List BedrockStreamEvent → Int → Int →
      List (StreamAction BedrockChunkData)
  | [], promptTokens, completionTokens =>
      [.recordEvent { provider := .bedrock, model := modelId,
                      promptTokens := promptTokens,
                      completionTokens := completionTokens,
                      latencyMs := some latencyMs }]
  | event :: rest, promptTokens, completionTokens =>
      match event.chunk with
      | some chunkData =>
          if chunkData.type = "message_stop" then
            match chunkData.amazonBedrockInvocationMetrics with
            | some metrics =>
                .yieldChunk chunkData ::
                  invokeModelWithResponseStream modelId latencyMs rest
                    (tsOptNumOr metrics.inputTokenCount 0)
                    (tsOptNumOr metrics.outputTokenCount 0)
            | none =>
                .yieldChunk chunkData ::
                  invokeModelWithResponseStream modelId latencyMs rest
                    promptTokens completionTokens
          else
            .yieldChunk chunkData ::
              invokeModelWithResponseStream modelId latencyMs rest
                promptTokens completionTokens
      | none =>
          invokeModelWithResponseStream modelId latencyMs rest
            promptTokens completionTokens

/-- The `usage` object of an Azure stream event. -/
structure AzureStreamUsage where
  promptTokens : Int
  completionTokens : Int
deriving DecidableEq

/-- One Azure chat-completions stream event, restricted to the `usage`
field read by the token logic. -/
structure AzureStreamEvent where
  usage : Option AzureStreamUsage := none
deriving DecidableEq

/-- `AzureOpenAIWrapper.streamChatCompletions` as the trace of a run
consuming `events` to exhaustion. -/
def AzureOpenAIWrapper.streamChatCompletions (deploymentName : String)
    (latencyMs : Int) :
    List AzureStreamEvent → Int → Int → List (StreamAction AzureStreamEvent)
  | [], promptTokens, completionTokens =>
      [.recordEvent { provider := .azure_openai, model := deploymentName,
                      promptTokens := promptTokens,
                      completionTokens := completionTokens,
                      latencyMs := some latencyMs }]
  | event :: rest, promptTokens, completionTokens =>
      match event.usage with
      | some usage =>
          .yieldChunk event ::
            streamChatCompletions deploymentName latencyMs rest
              (tsNumOr usage.promptTokens 0)
              (tsNumOr usage.completionTokens 0)
      | none =>
          .yieldChunk event ::
            streamChatCompletions deploymentName latencyMs rest
              promptTokens completionTokens

/-! ## The claims' reading of the streaming accumulators

For the streaming-token claim the expected counts are written out
independently, following the claim text: the counts reported by the last
chunk that carried usage metadata (for Bedrock, the invocation metrics
of the last `message_stop` chunk that carries them), or zero when no
chunk did.  These definitions are the claim side of a refinement check
against the wrapper embeddings above. -/

/-- The usage reported by the last chunk that carries any (the claims'
"last chunk that carried usage metadata"), where `f` reads the usage a
single chunk reports: the latest chunk satisfying `(f ch).isSome`,
searched from the right, determines the result. -/
def lastReported {χ : Type} (f : χ → Option (Int × Int))
    (chunks : List χ) : Option (Int × Int) :=
  (chunks.reverse.find? (fun ch => (f ch).isSome)).bind f

/-- The usage a single Gemini chunk reports: the prompt and candidates
counts of its `usageMetadata`, when present. -/
def geminiChunkUsage (ch : GenerateContentResponse) : Option (Int × Int) :=
  ch.response.usageMetadata.map
    (fun u => (u.promptTokenCount, u.candidatesTokenCount))

/-- Claim side: the usage reported by the last Gemini chunk carrying
`usageMetadata`. -/
def geminiLastReportedUsage (chunks : List GenerateContentResponse) :
    Option (Int × Int) :=
  lastReported geminiChunkUsage chunks

/-- The decoded chunks of a Bedrock stream, in order. -/
def bedrockDecodedChunks (events : List BedrockStreamEvent) :
    List BedrockChunkData :=
  events.filterMap (·.chunk)

/-- The usage a single decoded Bedrock chunk reports: the invocation
metrics of a `message_stop` chunk that carries them, each count
defaulting to zero when the metrics object omits it. -/
def bedrockChunkUsage (d : BedrockChunkData) : Option (Int × Int) :=
  if d.type = "message_stop" then
    d.amazonBedrockInvocationMetrics.map
      (fun m => (tsOptNumOr m.inputTokenCount 0,
                 tsOptNumOr m.outputTokenCount 0))
  else none

/-- Claim side: the invocation metrics of the last decoded `message_stop`
chunk that carries them. -/
def bedrockLastReportedUsage (events : List BedrockStreamEvent) :
    Option (Int × Int) :=
  lastReported bedrockChunkUsage (bedrockDecodedChunks events)

/-- The usage a single Azure stream event reports. -/
def azureChunkUsage (ev : AzureStreamEvent) : Option (Int × Int) :=
  ev.usage.map (fun u => (u.promptTokens, u.completionTokens))

/-- Claim side: the usage reported by the last Azure stream event
carrying `usage`. -/
def azureLastReportedUsage (events : List AzureStreamEvent) :
    Option (Int × Int) :=
  lastReported azureChunkUsage events

/-! ## BoundedQueue

The client module that implements the queue is not among the sources;
the definitions below are modelled from the specification (§4.1). -/

/-- Modelled from the spec: the §4.1 BoundedQueue state — a capacity
ceiling and the buffered items in insertion order. -/
structure BoundedQueue (α : Type) where
  capacity : Nat
  items : List α := []

/-- Modelled from the spec: `enqueue(event)` appends to the tail; if the
current length already equals the capacity, the incoming event is
dropped and the drop reported (the `Bool` of the result), without
blocking the caller or growing the queue. -/
def BoundedQueue.enqueue {α : Type} (q : BoundedQueue α) (e : α) :
    BoundedQueue α × Bool :=
  if q.items.length = q.capacity then (q, true)
  else ({ q with items := q.items ++ [e] }, false)

/-- Modelled from the spec: `drain(maxCount)` atomically removes and
returns up to `maxCount` events from the head. -/
def BoundedQueue.drain {α : Type} (q : BoundedQueue α) (maxCount : Nat) :
    List α × BoundedQueue α :=
  (q.items.take maxCount, { q with items := q.items.drop maxCount })

/-- Modelled from the spec: `size()` reports the current length. -/
def BoundedQueue.size {α : Type} (q : BoundedQueue α) : Nat :=
  q.items.length

/-- A fresh queue with the configured capacity. -/
def BoundedQueue.empty (α : Type) (capacity : Nat) : BoundedQueue α :=
  { capacity := capacity }

/-- One operation against the queue. -/
inductive QueueOp (α : Type) where
  | enqueue (e : α)
  | drain (maxCount : Nat)

/-- Run a sequence of queue operations, discarding the reported drops
and drained batches. -/
def runQueueOps {α : Type} (q : BoundedQueue α) :
    List (QueueOp α) → BoundedQueue α
  | [] => q
  | QueueOp.enqueue e :: rest => runQueueOps (q.enqueue e).1 rest
  | QueueOp.drain n :: rest => runQueueOps (q.drain n).2 rest

/-! ## DeliveryScheduler retry loop

The client module that implements the scheduler is not among the
sources; the loop below is modelled from the specification (§4.3). -/

/-- One delivery attempt's outcome, per the spec's failure taxonomy
(§4.3, §7): transient failures are timeouts, connection errors, 5xx and
429; permanent failures are the other 4xx. -/
inductive AttemptOutcome where
  | success
  | transientFailure
  | permanentFailure
deriving DecidableEq

/-- The terminal outcome of one delivery cycle, carrying the number of
attempts performed.  A dropped batch is reported through the
observability channel as a value of this type, never thrown. -/
inductive DeliveryOutcome where
  | delivered (attemptsMade : Nat)
  | droppedPermanent (attemptsMade : Nat)
  | droppedAfterRetries (attemptsMade : Nat)
deriving DecidableEq

/-- Modelled from the spec: the §4.3 retry loop around single transport
attempts.  `transport i` is the outcome of the `i`-th attempt (0-based);
`remaining` counts the attempts still allowed, starting at the
configured retry attempt count; `attemptsMade` counts attempts already
performed, starting at `0`.  Success delivers, a permanent failure drops
the batch immediately, a transient failure consumes one attempt and
retries (backoff delays do not change the attempt count). -/
def deliverWithRetry (transport : Nat → AttemptOutcome) :
    Nat → Nat → DeliveryOutcome
  | 0, attemptsMade => .droppedAfterRetries attemptsMade
  | remaining + 1, attemptsMade =>
    match transport attemptsMade with
    | .success => .delivered (attemptsMade + 1)
    | .permanentFailure => .droppedPermanent (attemptsMade + 1)
    | .transientFailure => deliverWithRetry transport remaining (attemptsMade + 1)

/-! ## Wire payload (`types.ts` and the §6 wire contract) -/

/-- A JSON value, for stating wire-shape properties. -/
inductive Json where
  | str (s : String)
  | int (n : Int)
  | bool (b : Bool)
  | null
  | arr (elems : List Json)
  | obj (fields : List (String × Json))

/-- The keys of a JSON object, in order. -/
def Json.objKeys : Json → List String
  | .obj fields => fields.map (·.1)
  | _ => []

/-- The value at a key of a JSON object. -/
def Json.objLookup (j : Json) (key : String) : Option Json :=
  match j with
  | .obj fields => (fields.find? (fun kv => kv.1 == key)).map (·.2)
  | _ => none

/-- The `UsageEvent` interface of `types.ts`.  The `Date` timestamp is
embedded as epoch milliseconds. -/
structure UsageEvent where
  tenantId : String
  provider : Provider
  model : String
  promptTokens : Int
  completionTokens : Int
  timestamp : Int
  latencyMs : Option Int := none
  host : Option HostMetadata := none
  metadata : Option (List (String × Json)) := none

/-- The `k8s` object of the wire `host` object (`types.ts`,
`UsageEventPayload`). -/
structure K8sPayload where
  pod : Option String := none
  «namespace» : Option String := none
  node : Option String := none

/-- The wire `host` object (`types.ts`, `UsageEventPayload`). -/
structure HostPayload where
  hostname : String
  cloud_provider : String
  instance_id : Option String := none
  k8s : Option K8sPayload := none

/-- The `UsageEventPayload` interface of `types.ts`: the wire shape of
one event. -/
structure UsageEventPayload where
  tenant_id : String
  provider : String
  model : String
  prompt_tokens : Int
  completion_tokens : Int
  timestamp : String
  latency_ms : Option Int := none
  host : Option HostPayload := none
  metadata : Option (List (String × Json)) := none

/-- The wire name of each provider (the union type of `types.ts` already
uses the wire spelling). -/
def Provider.wireName : Provider → String
  | .bedrock => "bedrock"
  | .azure_openai => "azure_openai"
  | .gemini => "gemini"

/-- The wire name of each cloud provider (the union type of
`hostMetadata.ts` already uses the wire spelling). -/
def CloudProvider.wireName : CloudProvider → String
  | .aws => "aws"
  | .azure => "azure"
  | .gcp => "gcp"
  | .onPrem => "on-prem"
  | .unknown => "unknown"

/-- Modelled from the spec: the ISO-8601 rendering of a record-time
instant, performed by the missing client/transport module.  The claims
depend only on the wire timestamp being a string, so the rendering is a
plain decimal placeholder. -/
def isoTimestamp (epochMillis : Int) : String := toString epochMillis

/-- Modelled from the spec: the missing client/transport module maps the
camelCase host metadata to the snake_case wire object of §6. -/
def HostMetadata.toPayload (h : HostMetadata) : HostPayload :=
  { hostname := h.hostname
    cloud_provider := h.cloudProvider.wireName
    instance_id := h.instanceId
    k8s := h.k8s.map (fun k =>
      { pod := k.pod, «namespace» := k.«namespace», node := k.node }) }

/-- Modelled from the spec: the missing client/transport module converts
an internal `UsageEvent` to the wire `UsageEventPayload` of §6. -/
def UsageEvent.toPayload (e : UsageEvent) : UsageEventPayload :=
  { tenant_id := e.tenantId
    provider := e.provider.wireName
    model := e.model
    prompt_tokens := e.promptTokens
    completion_tokens := e.completionTokens
    timestamp := isoTimestamp e.timestamp
    latency_ms := e.latencyMs
    host := e.host.map HostMetadata.toPayload
    metadata := e.metadata }

/-- Modelled from the spec: JSON serialization of the wire `k8s` object;
absent optional fields are omitted. -/
def K8sPayload.toJson (k : K8sPayload) : Json :=
  .obj ((match k.pod with
          | some p => [("pod", Json.str p)]
          | none => [])
    ++ (match k.«namespace» with
          | some n => [("namespace", Json.str n)]
          | none => [])
    ++ (match k.node with
          | some n => [("node", Json.str n)]
          | none => []))

/-- Modelled from the spec: JSON serialization of the wire `host`
object; absent optional fields are omitted. -/
def HostPayload.toJson (h : HostPayload) : Json :=
  .obj ([("hostname", Json.str h.hostname),
         ("cloud_provider", Json.str h.cloud_provider)]
    ++ (match h.instance_id with
          | some i => [("instance_id", Json.str i)]
          | none => [])
    ++ (match h.k8s with
          | some k => [("k8s", k.toJson)]
          | none => []))

/-- Modelled from the spec: JSON serialization of one event payload per
the §6 wire contract; absent optional fields are omitted. -/
def UsageEventPayload.toJson (p : UsageEventPayload) : Json :=
  .obj ([("tenant_id", Json.str p.tenant_id),
         ("provider", Json.str p.provider),
         ("model", Json.str p.model),
         ("prompt_tokens", Json.int p.prompt_tokens),
         ("completion_tokens", Json.int p.completion_tokens),
         ("timestamp", Json.str p.timestamp)]
    ++ (match p.latency_ms with
          | some l => [("latency_ms", Json.int l)]
          | none => [])
    ++ (match p.host with
          | some h => [("host", h.toJson)]
          | none => [])
    ++ (match p.metadata with
          | some m => [("metadata", Json.obj m)]
          | none => []))

/-! ## Non-negativity predicates on provider responses (claim side) -/

/-- Every present value of an optional count is non-negative. -/
def optNonneg (o : Option Int) : Prop := ∀ n ∈ o, 0 ≤ n

/-- All counts a provider `usage` object reports are non-negative. -/
def UsageObj.nonnegReported (u : UsageObj) : Prop :=
  optNonneg u.input_tokens ∧ optNonneg u.output_tokens ∧
  optNonneg u.prompt_tokens ∧ optNonneg u.completion_tokens

/-- All counts a Bedrock response body reports are non-negative. -/
def BedrockResponseBody.nonnegReported (b : BedrockResponseBody) : Prop :=
  (∀ u ∈ b.usage, u.nonnegReported) ∧
  optNonneg b.inputTextTokenCount ∧
  (∀ rs ∈ b.results, ∀ r ∈ rs, optNonneg r.tokenCount) ∧
  optNonneg b.prompt_token_count ∧
  optNonneg b.generation_token_count ∧
  (∀ m ∈ b.meta, ∀ bu ∈ m.billed_units,
    optNonneg bu.input_tokens ∧ optNonneg bu.output_tokens)

/-- A concrete host metadata value, for witnesses. -/
def hostExample : HostMetadata :=
  { hostname := "host-1", cloudProvider := .aws, instanceId := some "i-0abc",
    k8s := some { pod := some "pod-1", «namespace» := some "ns-1",
                  node := some "node-1" } }

/-- A concrete usage event with every optional field present, for
witnesses. -/
def evExample : UsageEvent :=
  { tenantId := "acme", provider := .gemini, model := "gemini-1.5-pro",
    promptTokens := 3, completionTokens := 4, timestamp := 1700000000000,
    latencyMs := some 120, host := some hostExample,
    metadata := some [("requestId", Json.str "r-1")] }

/-! # Theorems -/

/-! ## Helper lemmas -/

theorem tsNumOr_zero (x : Int) : tsNumOr x 0 = x := by
  unfold tsNumOr
  split <;> omega

theorem stripTrailingSlash_localhost :
    stripTrailingSlash "http://localhost:8000" = "http://localhost:8000" := by
  decide

/-! ## C3: configuration with missing backend URL / tenant id -/

/-- C3 counterexample: constructing a configuration with no backend URL
and no tenant id — neither programmatic nor in the environment — does
not fail; construction succeeds with the fallback defaults. -/
theorem config_missing_url_and_tenant_succeeds :
    TokenTrackrConfig.make {} emptyEnv =
      Except.ok { backendUrl := "http://localhost:8000", apiKey := none,
                  tenantId := "default", batchSize := 10, flushInterval := 5,
                  maxQueueSize := 1000, retryAttempts := 3, timeout := 30000,
                  asyncMode := true } := by
  rfl

/-- C3 (amended): a missing backend URL or tenant id does not fail
construction; the constructor falls back to the environment and then to
the built-in defaults "http://localhost:8000" and "default".
Construction fails only when the resolved backend URL is empty after the
trailing-slash strip — a backendUrl of "/" with nothing else configured
is such a case — and then only an error is observable, never a partially
constructed configuration. -/
theorem config_defaults_apply_and_only_empty_url_fails
    (opts : TokenTrackrOptions) (env : String → Option String)
    (hurl : opts.backendUrl = none) (htid : opts.tenantId = none)
    (henvUrl : env "TOKEN_TRACKR_URL" = none)
    (henvTid : env "TOKEN_TRACKR_TENANT_ID" = none) :
    (∃ cfg, TokenTrackrConfig.make opts env = Except.ok cfg ∧
        cfg.backendUrl = "http://localhost:8000" ∧ cfg.tenantId = "default") ∧
    TokenTrackrConfig.make { backendUrl := some "/" } emptyEnv =
      Except.error "backendUrl is required" := by
  constructor
  · refine ⟨{ backendUrl := "http://localhost:8000",
              apiKey := tsOrOpt opts.apiKey (env "TOKEN_TRACKR_API_KEY"),
              tenantId := "default",
              batchSize := opts.batchSize.getD 10,
              flushInterval := opts.flushInterval.getD 5,
              maxQueueSize := opts.maxQueueSize.getD 1000,
              retryAttempts := opts.retryAttempts.getD 3,
              timeout := opts.timeout.getD 30000,
              asyncMode := opts.asyncMode.getD true }, ?_, rfl, rfl⟩
    unfold TokenTrackrConfig.make
    rw [hurl, htid, henvUrl, henvTid]
    simp [tsOrStr, stripTrailingSlash_localhost]
  · rfl

/-- C3 witness: the amended theorem at the empty options and empty
environment. -/
theorem config_defaults_witness :
    (∃ cfg, TokenTrackrConfig.make {} emptyEnv = Except.ok cfg ∧
        cfg.backendUrl = "http://localhost:8000" ∧ cfg.tenantId = "default") ∧
    TokenTrackrConfig.make { backendUrl := some "/" } emptyEnv =
      Except.error "backendUrl is required" :=
  config_defaults_apply_and_only_empty_url_fails {} emptyEnv rfl rfl rfl rfl

/-! ## C4: zero maximum queue capacity -/

/-- C4 counterexample: an options record with `maxQueueSize` zero is not
rejected — construction succeeds and produces a configuration with
capacity zero. -/
theorem config_accepts_zero_max_queue_size :
    TokenTrackrConfig.make { maxQueueSize := some 0 } emptyEnv =
      Except.ok { backendUrl := "http://localhost:8000", apiKey := none,
                  tenantId := "default", batchSize := 10, flushInterval := 5,
                  maxQueueSize := 0, retryAttempts := 3, timeout := 30000,
                  asyncMode := true } := by
  rfl

/-- C4 (amended): a zero `maxQueueSize` is not rejected at configuration
time: the constructor validates no numeric option, and whenever
construction succeeds a configured capacity of zero is carried into the
configuration unchanged. -/
theorem config_zero_capacity_carried_through
    (opts : TokenTrackrOptions) (env : String → Option String)
    (cfg : TokenTrackrConfig)
    (hok : TokenTrackrConfig.make opts env = Except.ok cfg)
    (h0 : opts.maxQueueSize = some 0) :
    cfg.maxQueueSize = 0 := by
  unfold TokenTrackrConfig.make at hok
  dsimp only at hok
  split at hok
  · exact absurd hok (by simp)
  · split at hok
    · exact absurd hok (by simp)
    · rw [Except.ok.injEq] at hok
      rw [← hok, h0]
      rfl

/-- C4 witness: the amended theorem at the concrete zero-capacity
options and empty environment. -/
theorem config_zero_capacity_witness :
    ({ backendUrl := "http://localhost:8000", apiKey := none,
       tenantId := "default", batchSize := 10, flushInterval := 5,
       maxQueueSize := 0, retryAttempts := 3, timeout := 30000,
       asyncMode := true } : TokenTrackrConfig).maxQueueSize = 0 :=
  config_zero_capacity_carried_through { maxQueueSize := some 0 } emptyEnv _
    (by rfl) rfl

/-! ## C8: environment-overridable options -/

/-- C8 counterexample: the batch size cannot be overridden through any
environment variable — with no programmatic options, every successfully
constructed configuration has the fixed default batch size 10, whatever
the environment holds. -/
theorem batch_size_not_env_overridable :
    ¬ ∃ (env : String → Option String) (cfg : TokenTrackrConfig),
        TokenTrackrConfig.make {} env = Except.ok cfg ∧ cfg.batchSize ≠ 10 := by
  rintro ⟨env, cfg, hok, hne⟩
  apply hne
  unfold TokenTrackrConfig.make at hok
  dsimp only at hok
  split at hok
  · exact absurd hok (by simp)
  · split at hok
    · exact absurd hok (by simp)
    · rw [Except.ok.injEq] at hok
      rw [← hok]
      rfl

/-- C8 (amended): only the backend URL, API key and tenant id are
environment-overridable, through TOKEN_TRACKR_URL, TOKEN_TRACKR_API_KEY
and TOKEN_TRACKR_TENANT_ID, when not supplied programmatically; the
batch size, flush interval, max queue size, retry attempts, per-attempt
timeout and async-mode flag fall back to fixed defaults with no
environment override. -/
theorem only_url_key_tenant_env_overridable (url key tid : String)
    (hurl : url ≠ "") (hstrip : stripTrailingSlash url ≠ "")
    (htid : tid ≠ "") :
    (TokenTrackrConfig.make {}
        (fun k =>
          if k = "TOKEN_TRACKR_URL" then some url
          else if k = "TOKEN_TRACKR_API_KEY" then some key
          else if k = "TOKEN_TRACKR_TENANT_ID" then some tid
          else none)
      = Except.ok { backendUrl := stripTrailingSlash url, apiKey := some key,
                    tenantId := tid, batchSize := 10, flushInterval := 5,
                    maxQueueSize := 1000, retryAttempts := 3,
                    timeout := 30000, asyncMode := true }) ∧
    (∀ (env : String → Option String) (cfg : TokenTrackrConfig),
      TokenTrackrConfig.make {} env = Except.ok cfg →
        cfg.batchSize = 10 ∧ cfg.flushInterval = 5 ∧
        cfg.maxQueueSize = 1000 ∧ cfg.retryAttempts = 3 ∧
        cfg.timeout = 30000 ∧ cfg.asyncMode = true) := by
  constructor
  · unfold TokenTrackrConfig.make
    simp only [tsOrStr, tsOrOpt]
    simp [hurl, htid, hstrip]
  · intro env cfg hok
    unfold TokenTrackrConfig.make at hok
    dsimp only at hok
    split at hok
    · exact absurd hok (by simp)
    · split at hok
      · exact absurd hok (by simp)
      · rw [Except.ok.injEq] at hok
        rw [← hok]
        exact ⟨rfl, rfl, rfl, rfl, rfl, rfl⟩

/-- C8 witness: the amended theorem at a concrete environment. -/
theorem env_overridable_witness :
    (TokenTrackrConfig.make {}
        (fun k =>
          if k = "TOKEN_TRACKR_URL" then some "http://collector:9000/"
          else if k = "TOKEN_TRACKR_API_KEY" then some "secret"
          else if k = "TOKEN_TRACKR_TENANT_ID" then some "acme"
          else none)
      = Except.ok { backendUrl := stripTrailingSlash "http://collector:9000/",
                    apiKey := some "secret", tenantId := "acme",
                    batchSize := 10, flushInterval := 5, maxQueueSize := 1000,
                    retryAttempts := 3, timeout := 30000,
                    asyncMode := true }) ∧
    (∀ (env : String → Option String) (cfg : TokenTrackrConfig),
      TokenTrackrConfig.make {} env = Except.ok cfg →
        cfg.batchSize = 10 ∧ cfg.flushInterval = 5 ∧
        cfg.maxQueueSize = 1000 ∧ cfg.retryAttempts = 3 ∧
        cfg.timeout = 30000 ∧ cfg.asyncMode = true) :=
  only_url_key_tenant_env_overridable "http://collector:9000/" "secret" "acme"
    (by decide) (by decide) (by decide)

/-! ## C1: bounded queue never exceeds capacity -/

/-- Helper invariant: running any operation sequence preserves the
capacity and keeps the length within it. -/
theorem runQueueOps_invariant {α : Type} (ops : List (QueueOp α)) :
    ∀ q : BoundedQueue α, q.items.length ≤ q.capacity →
      (runQueueOps q ops).capacity = q.capacity ∧
      (runQueueOps q ops).items.length ≤ q.capacity := by
  induction ops with
  | nil => intro q h; exact ⟨rfl, h⟩
  | cons op rest ih =>
    intro q h
    cases op with
    | enqueue e =>
      show (runQueueOps (q.enqueue e).1 rest).capacity = q.capacity ∧
        (runQueueOps (q.enqueue e).1 rest).items.length ≤ q.capacity
      by_cases hfull : q.items.length = q.capacity
      · have h1 : (q.enqueue e).1 = q := by
          simp [BoundedQueue.enqueue, hfull]
        rw [h1]
        exact ih q h
      · have h1 : (q.enqueue e).1 = { q with items := q.items ++ [e] } := by
          simp [BoundedQueue.enqueue, hfull]
        rw [h1]
        have := ih { q with items := q.items ++ [e] } (by simp; omega)
        simpa using this
    | drain n =>
      show (runQueueOps (q.drain n).2 rest).capacity = q.capacity ∧
        (runQueueOps (q.drain n).2 rest).items.length ≤ q.capacity
      have := ih { q with items := q.items.drop n } (by simp; omega)
      simpa [BoundedQueue.drain] using this

/-- C1: for every sequence of enqueue and drain operations starting from
an empty queue, the length never exceeds the configured capacity; an
enqueue against a full queue drops the incoming event, reports the drop
and leaves the queue unchanged — it neither grows nor blocks; and an
enqueue against a non-full queue still succeeds (appended, no drop
reported), so record calls keep succeeding after a drop. -/
theorem bounded_queue_length_never_exceeds_capacity {α : Type}
    (cap : Nat) (ops : List (QueueOp α)) (e : α) :
    (runQueueOps (BoundedQueue.empty α cap) ops).items.length ≤ cap ∧
    (∀ q : BoundedQueue α, q.items.length = q.capacity →
      q.enqueue e = (q, true)) ∧
    (∀ q : BoundedQueue α, q.items.length ≠ q.capacity →
      q.enqueue e = ({ q with items := q.items ++ [e] }, false)) := by
  refine ⟨?_, ?_, ?_⟩
  · exact (runQueueOps_invariant ops (BoundedQueue.empty α cap)
      (by simp [BoundedQueue.empty])).2
  · intro q hfull
    simp [BoundedQueue.enqueue, hfull]
  · intro q hnot
    simp [BoundedQueue.enqueue, hnot]

/-- C1 witness: capacity 2, three enqueues (the third overflows), and
the full/non-full enqueue behaviours at concrete queues. -/
theorem bounded_queue_witness :
    ((runQueueOps (BoundedQueue.empty Nat 2)
        [QueueOp.enqueue 7, QueueOp.enqueue 8,
         QueueOp.enqueue 9]).items.length ≤ 2) ∧
    (({ capacity := 2, items := [7, 8] } : BoundedQueue Nat).enqueue 9 =
      ({ capacity := 2, items := [7, 8] }, true)) ∧
    (({ capacity := 2, items := [7] } : BoundedQueue Nat).enqueue 8 =
      ({ capacity := 2, items := [7, 8] }, false)) := by
  have h := bounded_queue_length_never_exceeds_capacity 2
    [QueueOp.enqueue 7, QueueOp.enqueue 8, QueueOp.enqueue 9] (9 : Nat)
  have h2 := bounded_queue_length_never_exceeds_capacity (α := Nat) 2 [] 8
  exact ⟨h.1, h.2.1 { capacity := 2, items := [7, 8] } rfl,
    h2.2.2 { capacity := 2, items := [7] } (by decide)⟩

/-! ## C2: retry exhaustion performs exactly the configured attempts -/

/-- C2: with retry attempts = 3 and a transport failing every attempt
with a transient error, the delivery cycle performs exactly 3 attempts —
no more, no fewer — and then drops the batch; the terminal failure is a
reported outcome value handed to the observability channel, not an
exception thrown into the original record call. -/
theorem retry_exhaustion_performs_exactly_three_attempts
    (transport : Nat → AttemptOutcome)
    (hfail : ∀ i, i < 3 → transport i = AttemptOutcome.transientFailure) :
    deliverWithRetry transport 3 0 = DeliveryOutcome.droppedAfterRetries 3 := by
  have h0 := hfail 0 (by omega)
  have h1 := hfail 1 (by omega)
  have h2 := hfail 2 (by omega)
  simp [deliverWithRetry, h0, h1, h2]

/-- C2 witness: the always-transient transport. -/
theorem retry_exhaustion_witness :
    deliverWithRetry (fun _ => AttemptOutcome.transientFailure) 3 0 =
      DeliveryOutcome.droppedAfterRetries 3 :=
  retry_exhaustion_performs_exactly_three_attempts _ (fun _ _ => rfl)

/-! ## C9: host metadata cloud provider -/

/-- C9: every `getHostMetadata` result names one of aws, azure, gcp or
on-prem — never unknown; the probes are consulted in the fixed order
AWS, Azure, GCP; the first successful probe fixes the provider and
instance id and stops further probing (the probe count is 1 for AWS and
2 for Azure); and when all three probes fail the result is on-prem with
no instance id. -/
theorem host_metadata_provider_never_unknown
    (hostName : String) (k8s : Option K8sMetadata)
    (awsProbe azureProbe gcpProbe : Bool × Option String) :
    ((getHostMetadata hostName k8s awsProbe azureProbe gcpProbe).1.cloudProvider
        ≠ CloudProvider.unknown) ∧
    (awsProbe.1 = true →
      getHostMetadata hostName k8s awsProbe azureProbe gcpProbe =
        ({ hostname := hostName, cloudProvider := .aws,
           instanceId := awsProbe.2, k8s := k8s }, 1)) ∧
    (awsProbe.1 = false → azureProbe.1 = true →
      getHostMetadata hostName k8s awsProbe azureProbe gcpProbe =
        ({ hostname := hostName, cloudProvider := .azure,
           instanceId := azureProbe.2, k8s := k8s }, 2)) ∧
    (awsProbe.1 = false → azureProbe.1 = false → gcpProbe.1 = true →
      getHostMetadata hostName k8s awsProbe azureProbe gcpProbe =
        ({ hostname := hostName, cloudProvider := .gcp,
           instanceId := gcpProbe.2, k8s := k8s }, 3)) ∧
    (awsProbe.1 = false → azureProbe.1 = false → gcpProbe.1 = false →
      getHostMetadata hostName k8s awsProbe azureProbe gcpProbe =
        ({ hostname := hostName, cloudProvider := .onPrem,
           instanceId := none, k8s := k8s }, 3)) := by
  obtain ⟨adet, aid⟩ := awsProbe
  obtain ⟨zdet, zid⟩ := azureProbe
  obtain ⟨gdet, gid⟩ := gcpProbe
  cases adet <;> cases zdet <;> cases gdet <;>
    simp [getHostMetadata]

/-- C9 witness: a successful AWS probe at concrete values. -/
theorem host_metadata_witness :
    ((getHostMetadata "host-1" none (true, some "i-0abc") (false, none)
        (false, none)).1.cloudProvider ≠ CloudProvider.unknown) ∧
    getHostMetadata "host-1" none (true, some "i-0abc") (false, none)
        (false, none) =
      ({ hostname := "host-1", cloudProvider := .aws,
         instanceId := some "i-0abc", k8s := none }, 1) := by
  have h := host_metadata_provider_never_unknown "host-1" none
    (true, some "i-0abc") (false, none) (false, none)
  exact ⟨h.1, h.2.1 rfl⟩

/-! ## C5: extracted token counts and their sign -/

theorem tsOptNumOr_zero_nonneg (o : Option Int) (h : optNonneg o) :
    0 ≤ tsOptNumOr o 0 := by
  cases o with
  | none => exact le_refl 0
  | some v =>
    have hv := h v (by simp)
    simpa [tsOptNumOr, tsNumOr_zero] using hv

theorem optNonneg_bind {β : Type} (o : Option β) (f : β → Option Int)
    (h : ∀ x ∈ o, optNonneg (f x)) : optNonneg (o.bind f) := by
  intro n hn
  cases o with
  | none => simp at hn
  | some x => exact h x (by simp) n (by simpa using hn)

theorem exists_of_mem_bind {β γ : Type} {o : Option β} {f : β → Option γ}
    {c : γ} (h : c ∈ o.bind f) : ∃ x, o = some x ∧ c ∈ f x := by
  cases o with
  | none => simp at h
  | some x => exact ⟨x, rfl, by simpa using h⟩

theorem optNonneg_map {β : Type} (o : Option β) (f : β → Int)
    (h : ∀ x ∈ o, 0 ≤ f x) : optNonneg (o.map f) := by
  intro n hn
  cases o with
  | none => simp at hn
  | some x =>
    have hx := h x (by simp)
    simp at hn
    omega

/-- C5 counterexample: a Bedrock Anthropic response reporting
`usage.input_tokens = -1` passes `|| 0` unchanged (only `0` and absent
values are falsy), so the recorded prompt token count is negative. -/
theorem bedrock_extract_can_return_negative :
    BedrockWrapper.extractTokens "anthropic.claude-3"
        { usage := some { input_tokens := some (-1) } } = (-1, 0) ∧
    ((-1 : Int) < 0) := by
  constructor
  · decide
  · decide

/-- C5 (amended): the wrappers pass the provider-reported counts through
with absent values defaulting to zero, so every extracted prompt and
completion token count is non-negative whenever every count the provider
response reports is non-negative (and only then: a reported negative
count is recorded unchanged). -/
theorem extracted_tokens_nonneg_of_reported_nonneg
    (modelId : String) (body : BedrockResponseBody)
    (hb : body.nonnegReported)
    (g : GenerateContentResponse)
    (hg : ∀ u ∈ g.response.usageMetadata,
      0 ≤ u.promptTokenCount ∧ 0 ≤ u.candidatesTokenCount)
    (a : ChatCompletionResponse)
    (ha : ∀ u ∈ a.usage, 0 ≤ u.promptTokens ∧ 0 ≤ u.completionTokens) :
    (0 ≤ (BedrockWrapper.extractTokens modelId body).1 ∧
     0 ≤ (BedrockWrapper.extractTokens modelId body).2) ∧
    (0 ≤ (geminiUsageTokens g).1 ∧ 0 ≤ (geminiUsageTokens g).2) ∧
    (0 ≤ (azureChatCompletionTokens a).1 ∧
     0 ≤ (azureChatCompletionTokens a).2) := by
  obtain ⟨hu, hitc, hres, hptc, hgtc, hmeta⟩ := hb
  refine ⟨?_, ?_, ?_⟩
  · unfold BedrockWrapper.extractTokens
    dsimp only
    split
    · exact ⟨tsOptNumOr_zero_nonneg _ (optNonneg_bind _ _
          (fun u hu2 => (hu u hu2).1)),
        tsOptNumOr_zero_nonneg _ (optNonneg_bind _ _
          (fun u hu2 => (hu u hu2).2.1))⟩
    split
    · refine ⟨tsOptNumOr_zero_nonneg _ hitc, tsOptNumOr_zero_nonneg _ ?_⟩
      refine optNonneg_bind _ _ (fun r hr => ?_)
      obtain ⟨rs, hrs, hr2⟩ := exists_of_mem_bind hr
      exact hres rs (by simp [hrs]) r
        (List.mem_of_mem_head? (by simpa using hr2))
    split
    · exact ⟨tsOptNumOr_zero_nonneg _ hptc, tsOptNumOr_zero_nonneg _ hgtc⟩
    split
    · refine ⟨tsOptNumOr_zero_nonneg _ ?_, tsOptNumOr_zero_nonneg _ ?_⟩
      · refine optNonneg_bind _ _ (fun bu hbu => ?_)
        obtain ⟨m, hm, hbu2⟩ := exists_of_mem_bind hbu
        exact (hmeta m (by simp [hm]) bu (by simpa using hbu2)).1
      · refine optNonneg_bind _ _ (fun bu hbu => ?_)
        obtain ⟨m, hm, hbu2⟩ := exists_of_mem_bind hbu
        exact (hmeta m (by simp [hm]) bu (by simpa using hbu2)).2
    split
    · exact ⟨tsOptNumOr_zero_nonneg _ (optNonneg_bind _ _
          (fun u hu2 => (hu u hu2).2.2.1)),
        tsOptNumOr_zero_nonneg _ (optNonneg_bind _ _
          (fun u hu2 => (hu u hu2).2.2.2))⟩
    split
    · exact ⟨tsOptNumOr_zero_nonneg _ (optNonneg_bind _ _
          (fun u hu2 => (hu u hu2).2.2.1)),
        tsOptNumOr_zero_nonneg _ (optNonneg_bind _ _
          (fun u hu2 => (hu u hu2).2.2.2))⟩
    · exact ⟨le_refl 0, le_refl 0⟩
  · exact ⟨tsOptNumOr_zero_nonneg _ (optNonneg_map _ _
        (fun u hu2 => (hg u hu2).1)),
      tsOptNumOr_zero_nonneg _ (optNonneg_map _ _
        (fun u hu2 => (hg u hu2).2))⟩
  · exact ⟨tsOptNumOr_zero_nonneg _ (optNonneg_map _ _
        (fun u hu2 => (ha u hu2).1)),
      tsOptNumOr_zero_nonneg _ (optNonneg_map _ _
        (fun u hu2 => (ha u hu2).2))⟩

/-- C5 witness: the amended theorem at concrete responses with
non-negative reported counts. -/
theorem extracted_tokens_nonneg_witness :
    (0 ≤ (BedrockWrapper.extractTokens "anthropic.claude-3"
        { usage := some { input_tokens := some 5,
                          output_tokens := some 7 } }).1 ∧
     0 ≤ (BedrockWrapper.extractTokens "anthropic.claude-3"
        { usage := some { input_tokens := some 5,
                          output_tokens := some 7 } }).2) ∧
    (0 ≤ (geminiUsageTokens ⟨⟨some ⟨3, 4, 7⟩⟩⟩).1 ∧
     0 ≤ (geminiUsageTokens ⟨⟨some ⟨3, 4, 7⟩⟩⟩).2) ∧
    (0 ≤ (azureChatCompletionTokens ⟨some ⟨8, 9, 17⟩⟩).1 ∧
     0 ≤ (azureChatCompletionTokens ⟨some ⟨8, 9, 17⟩⟩).2) := by
  refine extracted_tokens_nonneg_of_reported_nonneg "anthropic.claude-3"
    { usage := some { input_tokens := some 5, output_tokens := some 7 } }
    ?_ ⟨⟨some ⟨3, 4, 7⟩⟩⟩ ?_ ⟨some ⟨8, 9, 17⟩⟩ ?_
  · refine ⟨?_, ?_, ?_, ?_, ?_, ?_⟩ <;>
      simp [UsageObj.nonnegReported, optNonneg]
  · intro u hu2
    simp at hu2
    rw [← hu2]
    exact ⟨by decide, by decide⟩
  · intro u hu2
    simp at hu2
    rw [← hu2]
    exact ⟨by decide, by decide⟩

/-! ## C6 and C10: streaming wrapper traces -/

theorem lastReported_cons {χ : Type} (f : χ → Option (Int × Int))
    (x : χ) (l : List χ) :
    lastReported f (x :: l) = (lastReported f l).or (f x) := by
  unfold lastReported
  rw [List.reverse_cons, List.find?_append]
  cases hl : l.reverse.find? (fun ch => (f ch).isSome) with
  | some y =>
    have hy := List.find?_some hl
    obtain ⟨v, hv⟩ := Option.isSome_iff_exists.mp (by simpa using hy)
    simp [hv]
  | none =>
    cases hx : f x with
    | some v => simp [List.find?, hx]
    | none => simp [List.find?, hx]

theorem or_some_getD {β : Type} (o : Option β) (v d : β) :
    (o.or (some v)).getD d = o.getD v := by
  cases o <;> rfl

/-- The full trace of a Gemini stream run: all chunks yielded in order,
then one record call carrying the accumulated counts. -/
theorem gemini_stream_run_eq (modelName : String) (latencyMs : Int)
    (chunks : List GenerateContentResponse) :
    ∀ p c : Int,
      GeminiWrapper.generateContentStream modelName latencyMs chunks p c =
        chunks.map StreamAction.yieldChunk ++
          [StreamAction.recordEvent
            { provider := .gemini, model := modelName,
              promptTokens := ((geminiLastReportedUsage chunks).getD (p, c)).1,
              completionTokens :=
                ((geminiLastReportedUsage chunks).getD (p, c)).2,
              latencyMs := some latencyMs }] := by
  induction chunks with
  | nil =>
    intro p c
    simp [GeminiWrapper.generateContentStream, geminiLastReportedUsage,
      lastReported]
  | cons ch rest ih =>
    intro p c
    unfold GeminiWrapper.generateContentStream
    cases hu : ch.response.usageMetadata with
    | some u =>
      dsimp only
      rw [ih]
      simp [geminiLastReportedUsage, lastReported_cons, geminiChunkUsage,
        hu, or_some_getD, tsNumOr_zero]
    | none =>
      dsimp only
      rw [ih]
      simp [geminiLastReportedUsage, lastReported_cons, geminiChunkUsage, hu]

/-- The full trace of a Bedrock stream run: all decoded chunks yielded
in order, then one record call carrying the accumulated counts. -/
theorem bedrock_stream_run_eq (modelId : String) (latencyMs : Int)
    (events : List BedrockStreamEvent) :
    ∀ p c : Int,
      BedrockWrapper.invokeModelWithResponseStream modelId latencyMs
          events p c =
        (bedrockDecodedChunks events).map StreamAction.yieldChunk ++
          [StreamAction.recordEvent
            { provider := .bedrock, model := modelId,
              promptTokens :=
                ((bedrockLastReportedUsage events).getD (p, c)).1,
              completionTokens :=
                ((bedrockLastReportedUsage events).getD (p, c)).2,
              latencyMs := some latencyMs }] := by
  induction events with
  | nil =>
    intro p c
    simp [BedrockWrapper.invokeModelWithResponseStream,
      bedrockLastReportedUsage, bedrockDecodedChunks, lastReported]
  | cons ev rest ih =>
    intro p c
    unfold BedrockWrapper.invokeModelWithResponseStream
    cases hch : ev.chunk with
    | none =>
      dsimp only
      rw [ih]
      simp [bedrockLastReportedUsage, bedrockDecodedChunks,
        List.filterMap_cons, hch]
    | some d =>
      dsimp only
      by_cases htype : d.type = "message_stop"
      · cases hm : d.amazonBedrockInvocationMetrics with
        | some m =>
          simp only [htype, if_true, hm]
          rw [ih]
          simp [bedrockLastReportedUsage, bedrockDecodedChunks,
            List.filterMap_cons, hch, lastReported_cons, bedrockChunkUsage,
            htype, hm, or_some_getD]
        | none =>
          simp only [htype, if_true, hm]
          rw [ih]
          simp [bedrockLastReportedUsage, bedrockDecodedChunks,
            List.filterMap_cons, hch, lastReported_cons, bedrockChunkUsage,
            htype, hm]
      · simp only [htype, if_false]
        rw [ih]
        simp [bedrockLastReportedUsage, bedrockDecodedChunks,
          List.filterMap_cons, hch, lastReported_cons, bedrockChunkUsage,
          htype]

/-- The full trace of an Azure stream run: all events yielded in order,
then one record call carrying the accumulated counts. -/
theorem azure_stream_run_eq (deploymentName : String) (latencyMs : Int)
    (events : List AzureStreamEvent) :
    ∀ p c : Int,
      AzureOpenAIWrapper.streamChatCompletions deploymentName latencyMs
          events p c =
        events.map StreamAction.yieldChunk ++
          [StreamAction.recordEvent
            { provider := .azure_openai, model := deploymentName,
              promptTokens := ((azureLastReportedUsage events).getD (p, c)).1,
              completionTokens :=
                ((azureLastReportedUsage events).getD (p, c)).2,
              latencyMs := some latencyMs }] := by
  induction events with
  | nil =>
    intro p c
    simp [AzureOpenAIWrapper.streamChatCompletions, azureLastReportedUsage,
      lastReported]
  | cons ev rest ih =>
    intro p c
    unfold AzureOpenAIWrapper.streamChatCompletions
    cases hu : ev.usage with
    | some u =>
      dsimp only
      rw [ih]
      simp [azureLastReportedUsage, lastReported_cons, azureChunkUsage,
        hu, or_some_getD, tsNumOr_zero]
    | none =>
      dsimp only
      rw [ih]
      simp [azureLastReportedUsage, lastReported_cons, azureChunkUsage, hu]

/-- A trace of yields followed by one record call records exactly that
one event. -/
theorem recordedEvents_yields_append {χ : Type} (chunks : List χ)
    (e : RecordInput) :
    recordedEvents (chunks.map StreamAction.yieldChunk ++
      [StreamAction.recordEvent e]) = [e] := by
  unfold recordedEvents
  rw [List.filterMap_append, List.filterMap_map]
  simp [List.filterMap]

/-- C6: for every streaming wrapper run consumed to exhaustion —
Gemini, Bedrock and Azure — the trace is exactly the yielded chunks in
order followed by a single record call: one terminal usage event is
recorded, never mid-stream and never more than once. -/
theorem streaming_records_exactly_once_after_final_yield :
    (∀ (modelName : String) (latencyMs : Int)
        (chunks : List GenerateContentResponse),
      ∃ e, GeminiWrapper.generateContentStream modelName latencyMs
          chunks 0 0 =
        chunks.map StreamAction.yieldChunk ++
          [StreamAction.recordEvent e]) ∧
    (∀ (modelId : String) (latencyMs : Int)
        (events : List BedrockStreamEvent),
      ∃ e, BedrockWrapper.invokeModelWithResponseStream modelId latencyMs
          events 0 0 =
        (bedrockDecodedChunks events).map StreamAction.yieldChunk ++
          [StreamAction.recordEvent e]) ∧
    (∀ (deploymentName : String) (latencyMs : Int)
        (events : List AzureStreamEvent),
      ∃ e, AzureOpenAIWrapper.streamChatCompletions deploymentName
          latencyMs events 0 0 =
        events.map StreamAction.yieldChunk ++
          [StreamAction.recordEvent e]) :=
  ⟨fun modelName latencyMs chunks =>
      ⟨_, gemini_stream_run_eq modelName latencyMs chunks 0 0⟩,
    fun modelId latencyMs events =>
      ⟨_, bedrock_stream_run_eq modelId latencyMs events 0 0⟩,
    fun deploymentName latencyMs events =>
      ⟨_, azure_stream_run_eq deploymentName latencyMs events 0 0⟩⟩

/-- C10: for every streaming wrapper run consumed to completion, the
single recorded event carries exactly the counts reported by the last
chunk that carried usage metadata (for Bedrock, the invocation metrics
of the last decoded `message_stop` chunk carrying them), and both
counts default to zero when no chunk carried usage metadata. -/
theorem streaming_recorded_tokens_eq_last_reported :
    (∀ (modelName : String) (latencyMs : Int)
        (chunks : List GenerateContentResponse),
      recordedEvents (GeminiWrapper.generateContentStream modelName
          latencyMs chunks 0 0) =
        [{ provider := .gemini, model := modelName,
           promptTokens := ((geminiLastReportedUsage chunks).getD (0, 0)).1,
           completionTokens :=
             ((geminiLastReportedUsage chunks).getD (0, 0)).2,
           latencyMs := some latencyMs }]) ∧
    (∀ (modelId : String) (latencyMs : Int)
        (events : List BedrockStreamEvent),
      recordedEvents (BedrockWrapper.invokeModelWithResponseStream modelId
          latencyMs events 0 0) =
        [{ provider := .bedrock, model := modelId,
           promptTokens := ((bedrockLastReportedUsage events).getD (0, 0)).1,
           completionTokens :=
             ((bedrockLastReportedUsage events).getD (0, 0)).2,
           latencyMs := some latencyMs }]) ∧
    (∀ (deploymentName : String) (latencyMs : Int)
        (events : List AzureStreamEvent),
      recordedEvents (AzureOpenAIWrapper.streamChatCompletions
          deploymentName latencyMs events 0 0) =
        [{ provider := .azure_openai, model := deploymentName,
           promptTokens := ((azureLastReportedUsage events).getD (0, 0)).1,
           completionTokens :=
             ((azureLastReportedUsage events).getD (0, 0)).2,
           latencyMs := some latencyMs }]) := by
  refine ⟨?_, ?_, ?_⟩
  · intro modelName latencyMs chunks
    rw [gemini_stream_run_eq modelName latencyMs chunks 0 0,
      recordedEvents_yields_append]
  · intro modelId latencyMs events
    rw [bedrock_stream_run_eq modelId latencyMs events 0 0,
      recordedEvents_yields_append]
  · intro deploymentName latencyMs events
    rw [azure_stream_run_eq deploymentName latencyMs events 0 0,
      recordedEvents_yields_append]

/-! ## C7: wire fields of a serialized event payload -/

/-- C7: every serialized event payload carries exactly the wire fields
tenant_id, provider, model, prompt_tokens, completion_tokens and
timestamp — string, string, string, integer, integer, string — plus
latency_ms, host and metadata exactly when present; the host object
carries hostname and cloud_provider plus instance_id and k8s when
present. -/
theorem payload_wire_fields (e : UsageEvent) :
    ((e.toPayload.toJson).objKeys =
      ["tenant_id", "provider", "model", "prompt_tokens",
       "completion_tokens", "timestamp"]
        ++ (if e.latencyMs.isSome then ["latency_ms"] else [])
        ++ (if e.host.isSome then ["host"] else [])
        ++ (if e.metadata.isSome then ["metadata"] else [])) ∧
    (e.toPayload.toJson).objLookup "tenant_id" = some (Json.str e.tenantId) ∧
    (e.toPayload.toJson).objLookup "provider" =
      some (Json.str e.provider.wireName) ∧
    (e.toPayload.toJson).objLookup "model" = some (Json.str e.model) ∧
    (e.toPayload.toJson).objLookup "prompt_tokens" =
      some (Json.int e.promptTokens) ∧
    (e.toPayload.toJson).objLookup "completion_tokens" =
      some (Json.int e.completionTokens) ∧
    (e.toPayload.toJson).objLookup "timestamp" =
      some (Json.str (isoTimestamp e.timestamp)) ∧
    (e.toPayload.toJson).objLookup "latency_ms" = e.latencyMs.map Json.int ∧
    (e.toPayload.toJson).objLookup "host" =
      e.host.map (fun h => (HostMetadata.toPayload h).toJson) ∧
    (∀ h ∈ e.host, ((HostMetadata.toPayload h).toJson).objKeys =
      ["hostname", "cloud_provider"]
        ++ (if h.instanceId.isSome then ["instance_id"] else [])
        ++ (if h.k8s.isSome then ["k8s"] else [])) ∧
    (e.toPayload.toJson).objLookup "metadata" = e.metadata.map Json.obj := by
  have hostKeys : ∀ h : HostMetadata,
      ((HostMetadata.toPayload h).toJson).objKeys =
        ["hostname", "cloud_provider"]
          ++ (if h.instanceId.isSome then ["instance_id"] else [])
          ++ (if h.k8s.isSome then ["k8s"] else []) := by
    intro h
    obtain ⟨hn, cp, iid, k8⟩ := h
    rcases iid with _ | i <;> rcases k8 with _ | k <;>
      simp [HostMetadata.toPayload, HostPayload.toJson, Json.objKeys]
  obtain ⟨tid, prov, mdl, pt, ct, ts, lat, host, meta⟩ := e
  refine ⟨?_, ?_, ?_, ?_, ?_, ?_, ?_, ?_, ?_, fun h hm => hostKeys h, ?_⟩
  all_goals
    rcases lat with _ | l <;> rcases host with _ | h <;>
      rcases meta with _ | m <;>
        simp [UsageEvent.toPayload, UsageEventPayload.toJson, Json.objKeys,
          Json.objLookup, List.find?]

/-- C7 witness: the wire-shape theorem at the concrete fully-populated
event. -/
theorem payload_wire_fields_witness :
    ((evExample.toPayload.toJson).objKeys =
      ["tenant_id", "provider", "model", "prompt_tokens",
       "completion_tokens", "timestamp", "latency_ms", "host",
       "metadata"]) ∧
    ((HostMetadata.toPayload hostExample).toJson).objKeys =
      ["hostname", "cloud_provider", "instance_id", "k8s"] := by
  obtain ⟨hkeys, _, _, _, _, _, _, _, _, hhost, _⟩ :=
    payload_wire_fields evExample
  refine ⟨?_, ?_⟩
  · simpa [evExample] using hkeys
  · simpa [hostExample] using hhost hostExample (by simp [evExample])

end TokenTrackr
